import Mathlib

/-!
Verification development for the Flappy-coach repository
(`src/flap.py` and `src/agent_display.py`).

The Python sources are shallowly embedded below.  Geometry is kept in `ℤ`
(pygame `Rect` coordinates are machine integers), Python floats that only
ever hold small dyadic/decimal values (velocities, offsets, elapsed seconds)
are embedded as `ℚ`, and millisecond timestamps (`pygame.time.get_ticks`)
as `ℕ`.  Rendering, audio and asset loading are not modelled: no claim
mentions them.
-/

/- Game constants, `src/flap.py` lines 11-23. -/

def SCREEN_WIDHT : ℤ := 400

def SCREEN_HEIGHT : ℤ := 600

def SPEED : ℚ := 10

def GRAVITY : ℚ := 1/2

def GAME_SPEED : ℤ := 5

def GROUND_WIDHT : ℤ := 2 * SCREEN_WIDHT

def GROUND_HEIGHT : ℤ := 100

def PIPE_WIDHT : ℤ := 80

def PIPE_HEIGHT : ℤ := 500

def PIPE_GAP : ℤ := 150

/-- Truncation toward zero, as performed when a Python float is stored into a
pygame `Rect` slot (C integer cast) or passed through `int(...)`. -/
def pyTrunc (q : ℚ) : ℤ :=
  if 0 ≤ q then ⌊q⌋ else -⌊-q⌋

/- Bird sprite, `src/flap.py` lines 36-83.  The embedded fields are the
vertical velocity `self.speed` and the vertical position `self.rect[1]`;
the horizontal position `self.rect[0]` is fixed at `SCREEN_WIDHT / 6` for
the whole round, and the animation-frame bookkeeping (lines 47, 53-55,
62-67) is pure rendering state that no claim mentions. -/

structure Bird where
  speed : ℚ
  y : ℤ
deriving DecidableEq

/-- `Bird.__init__` (lines 45, 59): `speed = SPEED`,
`rect[1] = SCREEN_HEIGHT / 2`. -/
def Bird.init : Bird :=
  { speed := SPEED, y := SCREEN_HEIGHT / 2 }

/-- `Bird.update` physics part (lines 69-71):
`self.speed += GRAVITY; self.rect[1] += self.speed`.  The sum
`rect[1] + speed` is a Python float that the `Rect` stores truncated. -/
def Bird.update (b : Bird) : Bird :=
  { speed := b.speed + GRAVITY
    y := pyTrunc ((b.y : ℚ) + (b.speed + GRAVITY)) }

/-- `Bird.bump` (lines 73-74): `self.speed = -SPEED`. -/
def Bird.bump (b : Bird) : Bird :=
  { b with speed := -SPEED }

/-- One bird physics tick as performed by the main loop.  The loop computes
`delta_time` each iteration (lines 207-208) but calls `bird_group.update()`
(line 305) with no argument: `Bird.update` receives no elapsed-time input,
so the tick result is independent of `delta_time`. -/
def bird_update_tick (b : Bird) (_delta_time : ℚ) : Bird :=
  Bird.update b

/-- `bird_pos = SCREEN_WIDHT / 6` (line 283), Python true division. -/
def bird_pos : ℚ := (SCREEN_WIDHT : ℚ) / 6

/- Pipe sprite, `src/flap.py` lines 90-113.  `rect[2]` and `rect[3]` are the
scaled sprite extent `PIPE_WIDHT × PIPE_HEIGHT` (line 96); the embedded
fields are `rect[0]` and `rect[1]`. -/

structure Pipe where
  x : ℤ
  y : ℤ
deriving DecidableEq

/-- `Pipe.__init__` (lines 92-106): `rect[0] = xpos`; for an inverted (top)
pipe `rect[1] = -(rect[3] - ysize)` with `rect[3] = PIPE_HEIGHT`, otherwise
`rect[1] = SCREEN_HEIGHT - ysize`. -/
def Pipe.init (inverted : Bool) (xpos ysize : ℤ) : Pipe :=
  { x := xpos
    y := if inverted then -(PIPE_HEIGHT - ysize) else SCREEN_HEIGHT - ysize }

/-- `Pipe.update` (lines 112-113): `self.rect[0] -= GAME_SPEED`. -/
def Pipe.update (p : Pipe) : Pipe :=
  { p with x := p.x - GAME_SPEED }

/-- `is_off_screen` (lines 135-137): `sprite.rect[0] < -(sprite.rect[2])`,
with `width` standing for `rect[2]`. -/
def is_off_screen (x width : ℤ) : Bool :=
  x < -width

/-- `get_random_pipes` (lines 139-144) with the draw
`size = random.randint(100, 300)` made an explicit argument: returns the
bottom pipe and the inverted top pipe. -/
def get_random_pipes (xpos size : ℤ) : Pipe × Pipe :=
  (Pipe.init false xpos size,
   Pipe.init true xpos (SCREEN_HEIGHT - size - PIPE_GAP))

/- ------------------------------------------------------------------ -/
/- Claim C3: bird gravity increment.                                   -/
/- ------------------------------------------------------------------ -/

/-- Claim C3, counterexample.  The claim states that on a tick with elapsed
time Δt the bird's velocity increases by `GRAVITY * Δt`.  On the tick with
`Δt = 2` (an admissible elapsed time, `0 ≤ 2`) starting from the freshly
constructed bird, the code increases the velocity by `GRAVITY = 1/2`,
not by `GRAVITY * 2 = 1`. -/
theorem bird_update_not_scaled_by_delta :
    0 ≤ (2 : ℚ) ∧
      ¬ (bird_update_tick Bird.init 2).speed = Bird.init.speed + GRAVITY * 2 := by
  constructor
  · norm_num
  · simp only [bird_update_tick, Bird.update, Bird.init, GRAVITY, SPEED]
    norm_num

/-- Claim C3, amended: on every tick, whatever elapsed time `delta_time` the
loop measured, the bird's velocity increases by exactly `GRAVITY` (the
increment is per-tick, not scaled by elapsed time), and the new velocity is
then added to the bird's y position (stored truncated to integer pixels). -/
theorem bird_update_gravity_per_tick (b : Bird) (delta_time : ℚ) :
    (bird_update_tick b delta_time).speed = b.speed + GRAVITY ∧
      (bird_update_tick b delta_time).y =
        pyTrunc ((b.y : ℚ) + (b.speed + GRAVITY)) := by
  exact ⟨rfl, rfl⟩

/-- Claim C3, amended theorem instantiated at the initial bird and a tick
with elapsed time 2. -/
theorem bird_update_gravity_witness :
    (bird_update_tick Bird.init 2).speed = Bird.init.speed + GRAVITY ∧
      (bird_update_tick Bird.init 2).y =
        pyTrunc ((Bird.init.y : ℚ) + (Bird.init.speed + GRAVITY)) :=
  bird_update_gravity_per_tick Bird.init 2

/- ------------------------------------------------------------------ -/
/- Claim C9: pipe gap geometry.                                        -/
/- ------------------------------------------------------------------ -/

/-- Claim C9: for every x-position and every size drawn by
`random.randint(100, 300)`, the generated pair has a vertical gap between
the top pipe's bottom edge (`rect[1] + PIPE_HEIGHT`) and the bottom pipe's
top edge (`rect[1]`) of at least `PIPE_GAP`, and the gap lies inside
`[0, SCREEN_HEIGHT]`. -/
theorem get_random_pipes_gap_on_screen (xpos size : ℤ)
    (h1 : 100 ≤ size) (h2 : size ≤ 300) :
    PIPE_GAP ≤ (get_random_pipes xpos size).1.y
        - ((get_random_pipes xpos size).2.y + PIPE_HEIGHT) ∧
      0 ≤ (get_random_pipes xpos size).2.y + PIPE_HEIGHT ∧
      (get_random_pipes xpos size).1.y ≤ SCREEN_HEIGHT := by
  simp only [get_random_pipes, Pipe.init, PIPE_GAP, PIPE_HEIGHT, SCREEN_HEIGHT,
    if_pos, if_neg, Bool.false_eq_true, not_false_iff, if_true, if_false]
  omega

/-- Claim C9 theorem instantiated at `xpos = 800`, `size = 200`. -/
theorem get_random_pipes_gap_witness :
    PIPE_GAP ≤ (get_random_pipes 800 200).1.y
        - ((get_random_pipes 800 200).2.y + PIPE_HEIGHT) ∧
      0 ≤ (get_random_pipes 800 200).2.y + PIPE_HEIGHT ∧
      (get_random_pipes 800 200).1.y ≤ SCREEN_HEIGHT :=
  get_random_pipes_gap_on_screen 800 200 (by decide) (by decide)

/- ------------------------------------------------------------------ -/
/- Ground scrolling and recycling, claim C5.                           -/
/- ------------------------------------------------------------------ -/

/- Ground sprite, `src/flap.py` lines 119-132: `rect[0] = xpos`,
`rect[1] = SCREEN_HEIGHT - GROUND_HEIGHT` (fixed), sprite extent
`GROUND_WIDHT × GROUND_HEIGHT` (line 124).  A segment is embedded as its
`rect[0]`; the ground group as the list of segments in pygame insertion
order. -/

/-- Initial ground group (lines 175-177, also rebuilt on reset, lines
260-263): `Ground(GROUND_WIDHT * i)` for `i = 0, 1`. -/
def groundInit : List ℤ := [0, GROUND_WIDHT]

/-- One tick of ground recycling and scrolling, `src/flap.py` lines 277-280
(identical code on the begin screen, lines 229-233) followed by
`ground_group.update()` (line 236 / 306): if the first segment is fully off
screen, remove it and append `Ground(GROUND_WIDHT - 20)`; then every
segment moves left by `GAME_SPEED`. -/
def groundStep (grounds : List ℤ) : List ℤ :=
  (match grounds with
    | [] => []
    | g :: rest =>
        if is_off_screen g GROUND_WIDHT then rest ++ [GROUND_WIDHT - 20]
        else g :: rest).map (fun x => x - GAME_SPEED)

/-- Reachability invariant of the ground group: two segments in list order,
the leading one at a multiple of `GAME_SPEED` within `[-805, 0]`, the
trailing one `785` or `800` ahead of it. -/
def GroundInv (grounds : List ℤ) : Prop :=
  ∃ a b, grounds = [a, b] ∧ a ≤ 0 ∧ -805 ≤ a ∧ (5 : ℤ) ∣ a ∧
    (b = a + 785 ∨ b = a + 800)

/-- The visible column `p` of the screen is covered by some segment. -/
def coversScreen (grounds : List ℤ) : Prop :=
  ∀ p : ℤ, 0 ≤ p → p < SCREEN_WIDHT → ∃ g ∈ grounds, g ≤ p ∧ p < g + GROUND_WIDHT

theorem groundInv_init : GroundInv groundInit := by
  refine ⟨0, 800, rfl, by norm_num, by norm_num, ⟨0, by norm_num⟩, ?_⟩
  right
  rfl

theorem groundInv_step (grounds : List ℤ) (h : GroundInv grounds) :
    GroundInv (groundStep grounds) := by
  obtain ⟨a, b, rfl, ha0, ha805, ⟨k, hk⟩, hb⟩ := h
  by_cases hoff : a < -GROUND_WIDHT
  · have ha : a = -805 := by
      simp only [GROUND_WIDHT, SCREEN_WIDHT] at hoff
      omega
    refine ⟨b - 5, 775, ?_, by omega, by omega, ⟨(b - 5) / 5, by omega⟩, by omega⟩
    simp only [groundStep, is_off_screen, GROUND_WIDHT, SCREEN_WIDHT, GAME_SPEED, ha]
    norm_num
  · refine ⟨a - 5, b - 5, ?_, by omega, ?_, ⟨k - 1, by omega⟩, by omega⟩
    · simp only [groundStep, is_off_screen, GROUND_WIDHT, SCREEN_WIDHT, GAME_SPEED]
      rw [if_neg (by simpa using hoff)]
      rfl
    · simp only [GROUND_WIDHT, SCREEN_WIDHT] at hoff
      omega

theorem groundInv_iterate (n : ℕ) : GroundInv (groundStep^[n] groundInit) := by
  induction n with
  | zero => exact groundInv_init
  | succ m ih =>
      rw [Function.iterate_succ_apply']
      exact groundInv_step _ ih

/-- Claim C5: after any number of scrolling/recycling ticks from the initial
configuration, exactly 2 ground segments exist and every visible screen
column lies inside some segment's horizontal span (zero gap across the
visible width). -/
theorem ground_two_segments_cover_screen (n : ℕ) :
    (groundStep^[n] groundInit).length = 2 ∧
      coversScreen (groundStep^[n] groundInit) := by
  obtain ⟨a, b, heq, ha0, ha805, _, hb⟩ := groundInv_iterate n
  rw [heq]
  refine ⟨rfl, ?_⟩
  intro p hp0 hpW
  simp only [SCREEN_WIDHT] at hpW
  by_cases hcase : p < a + GROUND_WIDHT
  · exact ⟨a, by simp, by omega, hcase⟩
  · refine ⟨b, by simp, ?_, ?_⟩ <;>
      simp only [GROUND_WIDHT, SCREEN_WIDHT, not_lt] at hcase ⊢ <;> omega

/-- Claim C5 theorem instantiated after 100 ticks, at screen column 200. -/
theorem ground_cover_witness :
    (groundStep^[100] groundInit).length = 2 ∧
      ∃ g ∈ groundStep^[100] groundInit, g ≤ 200 ∧ (200 : ℤ) < g + GROUND_WIDHT :=
  ⟨(ground_two_segments_cover_screen 100).1,
   (ground_two_segments_cover_screen 100).2 200 (by norm_num)
     (by norm_num [SCREEN_WIDHT])⟩

/- ------------------------------------------------------------------ -/
/- Scoring and pipe recycling, claim C6.                               -/
/- ------------------------------------------------------------------ -/

/-- Per-round scoring state of the main loop: the `passed` latch, the
`score` counter and the pipe group (list of single pipes in pygame
insertion order; a pair contributes its bottom pipe then its top pipe, both
at the same x). -/
structure ScoreState where
  passed : Bool
  score : ℕ
  pipes : List Pipe
deriving DecidableEq

/-- One alive tick of the scoring and pipe logic, `src/flap.py` lines
282-307, with the `random.randint` draw of the replacement pair made an
explicit argument: (1) if the `passed` latch is unset and the lead pipe's
`rect[0]` has reached `bird_pos`, set the latch and increment `score`
(lines 283-287); (2) if the lead pipe is fully off screen, remove the two
lead pipes, append a fresh pair at `SCREEN_WIDHT * 2`, and clear the latch
(lines 294-303); (3) `pipe_group.update()` moves every pipe left by
`GAME_SPEED` (line 307). -/
def scoringStep (s : ScoreState) (size : ℤ) : ScoreState :=
  let s1 := match s.pipes with
    | [] => s
    | cp :: _ =>
        if s.passed = false ∧ (cp.x : ℚ) ≤ bird_pos then
          { s with passed := true, score := s.score + 1 }
        else s
  let s2 := match s1.pipes with
    | [] => s1
    | cp :: _ =>
        if is_off_screen cp.x PIPE_WIDHT then
          { s1 with
            pipes := s1.pipes.drop 2 ++
              [(get_random_pipes (SCREEN_WIDHT * 2) size).1,
               (get_random_pipes (SCREEN_WIDHT * 2) size).2],
            passed := false }
        else s1
  { s2 with pipes := s2.pipes.map Pipe.update }

/-- Claim C6: on an alive tick whose lead pipe is `cp`, the score increments
by exactly 1 precisely when the `passed` latch is unset and `cp` has
reached-or-passed the bird's x-position (and the latch is set at that
moment); while the latch is set the score never increments; and the
resulting latch is set exactly when it was set or became set on this tick
and the lead pair was not removed (removal of the pair being the only way
the latch clears). -/
theorem score_increment_iff_lead_pipe_reached
    (passed : Bool) (score : ℕ) (cp : Pipe) (rest : List Pipe) (size : ℤ) :
    (scoringStep ⟨passed, score, cp :: rest⟩ size).score =
        score + (if passed = false ∧ (cp.x : ℚ) ≤ bird_pos then 1 else 0) ∧
      (passed = true → (scoringStep ⟨passed, score, cp :: rest⟩ size).score = score) ∧
      (scoringStep ⟨passed, score, cp :: rest⟩ size).passed =
        ((passed || decide ((cp.x : ℚ) ≤ bird_pos)) && !is_off_screen cp.x PIPE_WIDHT) := by
  by_cases hp : passed = true
  · subst hp
    by_cases hoff : is_off_screen cp.x PIPE_WIDHT = true
    · simp [scoringStep, hoff]
    · simp only [Bool.not_eq_true] at hoff
      simp [scoringStep, hoff]
  · simp only [Bool.not_eq_true] at hp
    subst hp
    by_cases hle : (cp.x : ℚ) ≤ bird_pos
    · by_cases hoff : is_off_screen cp.x PIPE_WIDHT = true
      · simp [scoringStep, hle, hoff]
      · simp only [Bool.not_eq_true] at hoff
        simp [scoringStep, hle, hoff]
    · by_cases hoff : is_off_screen cp.x PIPE_WIDHT = true
      · simp [scoringStep, hle, hoff]
      · simp only [Bool.not_eq_true] at hoff
        simp [scoringStep, hle, hoff]

/-- Claim C6 theorem instantiated at a tick with the latch already set and
the lead pipe at `x = 60` (past the bird): the score does not increment
again. -/
theorem score_increment_witness :
    (scoringStep ⟨true, 3, [Pipe.init false 60 200]⟩ 150).score = 3 :=
  (score_increment_iff_lead_pipe_reached true 3 (Pipe.init false 60 200) [] 150).2.1 rfl

/- ------------------------------------------------------------------ -/
/- Death event, claim C7.                                              -/
/- ------------------------------------------------------------------ -/

/-- Session counters involved in the death event. -/
structure RoundEnd where
  alive : Bool
  score : ℕ
  high_score : ℕ
  loss_count : ℕ
deriving DecidableEq

/-- The death event, `src/flap.py` lines 319-328 (collision detected):
`alive = False`, `new_high_score = score > high_score`,
`high_score = max(high_score, score)`, the agent's
`trigger_high_score_bounce` is invoked exactly when `new_high_score`, and
`loss_count += 1`.  The returned flag records whether the bounce was
invoked. -/
def death_event (s : RoundEnd) : RoundEnd × Bool :=
  let new_high_score := decide (s.high_score < s.score)
  ({ s with
      alive := false,
      high_score := max s.high_score s.score,
      loss_count := s.loss_count + 1 },
   new_high_score)

/-- Claim C7: at the collision ending a round, `high_score` becomes
`max high_score score`, it changes if and only if the round's score strictly
exceeds the previous high score, and `trigger_high_score_bounce` is invoked
if and only if that change occurs; `loss_count` increments and the round
ends. -/
theorem high_score_update_iff_bounce (s : RoundEnd) :
    (death_event s).1.high_score = max s.high_score s.score ∧
      ((death_event s).1.high_score ≠ s.high_score ↔ s.high_score < s.score) ∧
      ((death_event s).2 = true ↔ s.high_score < s.score) ∧
      ((death_event s).2 = true ↔ (death_event s).1.high_score ≠ s.high_score) ∧
      (death_event s).1.loss_count = s.loss_count + 1 ∧
      (death_event s).1.alive = false := by
  refine ⟨rfl, ?_, ?_, ?_, rfl, rfl⟩
  · simp only [death_event]
    omega
  · simp [death_event]
  · simp only [death_event, decide_eq_true_eq]
    omega

/-- Claim C7 theorem instantiated at a death with score 3 against previous
high score 1: the bounce is invoked. -/
theorem high_score_update_witness :
    (death_event ⟨true, 3, 1, 0⟩).2 = true :=
  (high_score_update_iff_bounce ⟨true, 3, 1, 0⟩).2.2.1.mpr (by norm_num)

/- ------------------------------------------------------------------ -/
/- Companion agent, `src/agent_display.py`.                            -/
/- ------------------------------------------------------------------ -/

/-- Fixed text of the encouragement message, `src/flap.py` line 353. -/
def nice_run_text : String := "Nice run!"

/-- `SpeechCommand` dataclass, `src/agent_display.py` lines 6-10. -/
structure SpeechCommand where
  duration : ℚ := 2
  text : Option String := none
deriving DecidableEq

/-- `self.jump_gravity = 900.0`, `src/agent_display.py` line 48; the field
is set once in the constructor and never reassigned. -/
def jump_gravity : ℚ := 900

/-- `CoachBirdAgent` mutable state, `src/agent_display.py` lines 37-47.
The embedded fields are the speech flag and deadline, the display label,
and the bounce offset/velocity.  The panel/font/surface handles and the
beak-toggle bookkeeping (`last_beak_switch`, `beak_interval_ms`) are pure
rendering state that no claim mentions; the dialog box is modelled
separately below. -/
structure CoachBirdAgent where
  speaking : Bool
  speech_end_time : ℕ
  display_text : Option String
  jump_offset : ℚ
  jump_velocity : ℚ
deriving DecidableEq

/-- `CoachBirdAgent.__init__` (lines 37-47): not speaking, deadline 0, no
label, bounce at rest. -/
def CoachBirdAgent.init : CoachBirdAgent :=
  { speaking := false, speech_end_time := 0, display_text := none,
    jump_offset := 0, jump_velocity := 0 }

/-- `trigger_high_score_bounce` (lines 55-58): only when the bounce offset
is exactly at rest, set the upward velocity `-220.0`. -/
def CoachBirdAgent.trigger_high_score_bounce (a : CoachBirdAgent) : CoachBirdAgent :=
  if a.jump_offset = 0 then { a with jump_velocity := -220 } else a

/-- `start_speaking` (lines 60-66): set the flag, record the absolute
deadline `now + int(duration * 1000)` and the label.  (`duration` is a
non-negative float in every call site, so the `ℕ` clamp in `toNat` is
never exercised.) -/
def CoachBirdAgent.start_speaking (a : CoachBirdAgent) (now : ℕ)
    (command : SpeechCommand) : CoachBirdAgent :=
  { a with
      speaking := true,
      speech_end_time := now + (pyTrunc (command.duration * 1000)).toNat,
      display_text := command.text }

/-- `stop_speaking` (lines 68-70). -/
def CoachBirdAgent.stop_speaking (a : CoachBirdAgent) : CoachBirdAgent :=
  { a with speaking := false, display_text := none }

/-- `CoachBirdAgent.update` (lines 72-91): end speech once `now` reaches the
deadline; then, if the bounce is not at rest with zero velocity, apply
gravity, integrate the offset, and clamp offset and velocity to 0 the
moment the offset passes the resting position.  (The trailing dialog-box
update and beak toggle, lines 87-91, touch only rendering state modelled
elsewhere.) -/
def CoachBirdAgent.update (a : CoachBirdAgent) (now : ℕ) (delta_time : ℚ) :
    CoachBirdAgent :=
  let a1 := if a.speaking = true ∧ a.speech_end_time ≤ now then a.stop_speaking else a
  if a1.jump_velocity ≠ 0 ∨ a1.jump_offset ≠ 0 then
    let v := a1.jump_velocity + jump_gravity * delta_time
    let off := a1.jump_offset + v * delta_time
    if 0 < off then { a1 with jump_offset := 0, jump_velocity := 0 }
    else { a1 with jump_offset := off, jump_velocity := v }
  else a1

/- ------------------------------------------------------------------ -/
/- Claim C8: the bounce never falls below the resting level.           -/
/- ------------------------------------------------------------------ -/

/-- Claim C8: after any `update` the bounce offset is at most 0 (the
resting ground level); whenever the integrated offset would cross past the
resting position the offset is clamped to 0 with the velocity zeroed; and
from rest, `trigger_high_score_bounce` sets the upward velocity `-220`. -/
theorem bounce_offset_clamped_at_rest (a : CoachBirdAgent) (now : ℕ)
    (delta_time : ℚ) :
    (a.update now delta_time).jump_offset ≤ 0 ∧
      (0 < a.jump_offset + (a.jump_velocity + jump_gravity * delta_time) * delta_time →
        (a.update now delta_time).jump_offset = 0 ∧
          (a.update now delta_time).jump_velocity = 0) ∧
      (a.jump_offset = 0 → (a.trigger_high_score_bounce).jump_velocity = -220) := by
  have hstop : ∀ a' : CoachBirdAgent,
      (a'.stop_speaking).jump_offset = a'.jump_offset ∧
        (a'.stop_speaking).jump_velocity = a'.jump_velocity := fun a' => ⟨rfl, rfl⟩
  refine ⟨?_, ?_, ?_⟩
  · simp only [CoachBirdAgent.update, CoachBirdAgent.stop_speaking]
    split_ifs <;> simp_all
  · intro hcross
    simp only [CoachBirdAgent.update, CoachBirdAgent.stop_speaking] at hcross ⊢
    split_ifs <;> simp_all
  · intro h0
    simp [CoachBirdAgent.trigger_high_score_bounce, h0]

/-- Claim C8 theorem instantiated at a bounce state about to overshoot:
offset `-1`, velocity `220`, `delta_time = 1`. -/
theorem bounce_offset_clamped_witness :
    (CoachBirdAgent.update
        { speaking := false, speech_end_time := 0, display_text := none,
          jump_offset := -1, jump_velocity := 220 } 0 1).jump_offset = 0 ∧
      (CoachBirdAgent.update
        { speaking := false, speech_end_time := 0, display_text := none,
          jump_offset := -1, jump_velocity := 220 } 0 1).jump_velocity = 0 :=
  (bounce_offset_clamped_at_rest
      { speaking := false, speech_end_time := 0, display_text := none,
        jump_offset := -1, jump_velocity := 220 } 0 1).2.1 (by norm_num [jump_gravity])

/- ------------------------------------------------------------------ -/
/- Claim C10: triggering the bounce is idempotent.                     -/
/- ------------------------------------------------------------------ -/

/-- Claim C10: `trigger_high_score_bounce` leaves the agent unchanged when a
bounce is in progress (`jump_offset ≠ 0`); from rest it only sets the
velocity to `-220`; and the call is idempotent in every state. -/
theorem trigger_bounce_idempotent (a : CoachBirdAgent) :
    (a.jump_offset ≠ 0 → a.trigger_high_score_bounce = a) ∧
      (a.jump_offset = 0 →
        a.trigger_high_score_bounce = { a with jump_velocity := -220 }) ∧
      (a.trigger_high_score_bounce).trigger_high_score_bounce =
        a.trigger_high_score_bounce := by
  refine ⟨?_, ?_, ?_⟩
  · intro h
    simp [CoachBirdAgent.trigger_high_score_bounce, h]
  · intro h
    simp [CoachBirdAgent.trigger_high_score_bounce, h]
  · by_cases h : a.jump_offset = 0
    · simp [CoachBirdAgent.trigger_high_score_bounce, h]
    · simp [CoachBirdAgent.trigger_high_score_bounce, h]

/-- Claim C10 theorem instantiated at a mid-bounce agent (offset `-3`):
the trigger leaves it unchanged. -/
theorem trigger_bounce_idempotent_witness :
    CoachBirdAgent.trigger_high_score_bounce
        { speaking := false, speech_end_time := 0, display_text := none,
          jump_offset := -3, jump_velocity := 50 } =
      { speaking := false, speech_end_time := 0, display_text := none,
        jump_offset := -3, jump_velocity := 50 } :=
  (trigger_bounce_idempotent
      { speaking := false, speech_end_time := 0, display_text := none,
        jump_offset := -3, jump_velocity := 50 }).1 (by norm_num)

/- ------------------------------------------------------------------ -/
/- Dead-state agent intervention, claim C1.                            -/
/- ------------------------------------------------------------------ -/

/-- Session state read and written by the Dead-state branch of the main
loop. -/
structure DeadState where
  agent_enabled : Bool
  loss_count : ℕ
  ticks_played : ℕ
  agent : CoachBirdAgent
deriving DecidableEq

/-- One Dead-state tick of the main loop, `src/flap.py` lines 346-355 (the
rendering lines are not modelled): arm `agent_enabled` once
`loss_count >= 5 and ticks_played >= 1800` (lines 347-348); if
`agent_enabled and not agent_display.is_speaking`, invoke
`start_speaking(SpeechCommand(duration=2.5, text="Nice run!"))` (lines
352-353); finally `agent_display.update(delta_time)` (line 355).  The
returned flag records whether `start_speaking` was invoked on this tick. -/
def deadTick (s : DeadState) (now : ℕ) (delta_time : ℚ) : DeadState × Bool :=
  let agent_enabled :=
    if s.agent_enabled = false ∧ 5 ≤ s.loss_count ∧ 1800 ≤ s.ticks_played then true
    else s.agent_enabled
  let invoked := agent_enabled && !s.agent.speaking
  let agent1 :=
    if invoked = true then
      s.agent.start_speaking now { duration := 5/2, text := some nice_run_text }
    else s.agent
  ({ s with agent_enabled := agent_enabled, agent := agent1.update now delta_time },
   invoked)

theorem pyTrunc_speech_duration : pyTrunc ((5 : ℚ)/2 * 1000) = 2500 := by
  have h1 : ((5 : ℚ)/2 * 1000) = ((2500 : ℤ) : ℚ) := by norm_num
  rw [pyTrunc, h1, if_pos (by positivity), Int.floor_intCast]

/-- Trace of Dead-state ticks, counting the `start_speaking` invocations;
each trace entry is the tick's `pygame.time.get_ticks()` value paired with
its `delta_time`. -/
def countStartSpeaking : DeadState → List (ℕ × ℚ) → ℕ
  | _, [] => 0
  | s, t :: ts =>
      (cond (deadTick s t.1 t.2).2 1 0) +
        countStartSpeaking (deadTick s t.1 t.2).1 ts

/-- Dead-state session at the fifth death after 1800 played ticks, agent
idle: exactly the arming condition of the claim. -/
def demoDead : DeadState :=
  { agent_enabled := false, loss_count := 5, ticks_played := 1800,
    agent := CoachBirdAgent.init }

/-- Agent state right after the first invocation at tick time 0. -/
def demoAgent1 : CoachBirdAgent :=
  { speaking := true, speech_end_time := 2500, display_text := some nice_run_text,
    jump_offset := 0, jump_velocity := 0 }

/-- Agent state after the 2.5 s speech has been stopped by `update`. -/
def demoAgent2 : CoachBirdAgent :=
  { speaking := false, speech_end_time := 2500, display_text := none,
    jump_offset := 0, jump_velocity := 0 }

theorem deadTick_demo1 :
    deadTick demoDead 0 (1/60) = (⟨true, 5, 1800, demoAgent1⟩, true) := by
  simp [deadTick, demoDead, demoAgent1, CoachBirdAgent.init,
    CoachBirdAgent.start_speaking, CoachBirdAgent.update,
    CoachBirdAgent.stop_speaking, pyTrunc_speech_duration]

theorem deadTick_demo2 :
    deadTick ⟨true, 5, 1800, demoAgent1⟩ 3000 (1/60) =
      (⟨true, 5, 1800, demoAgent2⟩, false) := by
  simp [deadTick, demoAgent1, demoAgent2, CoachBirdAgent.update,
    CoachBirdAgent.stop_speaking]

theorem deadTick_demo3 :
    (deadTick ⟨true, 5, 1800, demoAgent2⟩ 3100 (1/60)).2 = true := by
  simp [deadTick, demoAgent2]

/-- Claim C1, counterexample.  In the Dead state entered at the fifth death
after 1800 played ticks, with ticks at times 0 ms, 3000 ms and 3100 ms,
`start_speaking` is invoked twice (at time 0 and again at time 3100, the
speech of duration 2.5 s having ended by time 3000) — not exactly once for
the session. -/
theorem dead_ticks_reinvoke_start_speaking :
    ¬ (countStartSpeaking demoDead [(0, 1/60), (3000, 1/60), (3100, 1/60)] ≤ 1) := by
  have h : countStartSpeaking demoDead [(0, 1/60), (3000, 1/60), (3100, 1/60)] = 2 := by
    simp only [countStartSpeaking, deadTick_demo1, deadTick_demo2, deadTick_demo3]
    rfl
  omega

/-- Claim C1, amended: on a Dead-state tick, `agent_enabled` is armed
exactly when it already was or the loss/tick thresholds are met (so once
armed it stays armed for the session), and `start_speaking` is invoked
exactly when `agent_enabled` (as just computed) holds and the agent is not
currently speaking — hence it is re-invoked on every later Dead-state tick
at which the previous speech has ended, not exactly once per session; an
invocation leaves the agent speaking at the end of the tick. -/
theorem dead_tick_agent_enable_permanent_and_trigger
    (s : DeadState) (now : ℕ) (delta_time : ℚ) :
    (deadTick s now delta_time).1.agent_enabled =
        (s.agent_enabled || (decide (5 ≤ s.loss_count) && decide (1800 ≤ s.ticks_played))) ∧
      (deadTick s now delta_time).2 =
        ((deadTick s now delta_time).1.agent_enabled && !s.agent.speaking) ∧
      (s.agent_enabled = true → (deadTick s now delta_time).1.agent_enabled = true) ∧
      ((deadTick s now delta_time).2 = true →
        (deadTick s now delta_time).1.agent.speaking = true) := by
  refine ⟨?_, ?_, ?_, ?_⟩
  · cases he : s.agent_enabled <;>
      by_cases h5 : 5 ≤ s.loss_count <;>
      by_cases h18 : 1800 ≤ s.ticks_played <;>
      simp [deadTick, he, h5, h18]
  · cases he : s.agent_enabled <;>
      by_cases h5 : 5 ≤ s.loss_count <;>
      by_cases h18 : 1800 ≤ s.ticks_played <;>
      simp [deadTick, he, h5, h18]
  · intro he
    simp [deadTick, he]
  · intro hinv
    have hns : s.agent.speaking = false := by
      by_contra hcon
      simp only [Bool.not_eq_false] at hcon
      simp [deadTick, hcon] at hinv
    have hend : ∀ c : SpeechCommand,
        (s.agent.start_speaking now c).speaking = true := fun _ => rfl
    simp only [deadTick, hns] at hinv ⊢
    simp only [Bool.not_false, Bool.and_true] at hinv ⊢
    rw [if_pos hinv]
    simp [CoachBirdAgent.update, CoachBirdAgent.start_speaking,
      CoachBirdAgent.stop_speaking, pyTrunc_speech_duration]
    split_ifs <;> rfl

/-- Claim C1, amended theorem instantiated at the arming state: the first
qualifying Dead-state tick invokes `start_speaking` and leaves the agent
speaking. -/
theorem dead_tick_agent_trigger_witness :
    (deadTick demoDead 0 (1/60)).1.agent.speaking = true :=
  (dead_tick_agent_enable_permanent_and_trigger demoDead 0 (1/60)).2.2.2
    (by rw [deadTick_demo1])

/- ------------------------------------------------------------------ -/
/- Reset input gating, claim C4.                                       -/
/- ------------------------------------------------------------------ -/

/-- The frame-persistent state touched by the reset handler: the state
flags (lines 196-203) and the bird, ground and pipe groups. -/
structure GameState where
  begin : Bool
  alive : Bool
  passed : Bool
  score : ℕ
  high_score : ℕ
  loss_count : ℕ
  ticks_played : ℕ
  bird : Bird
  grounds : List ℤ
  pipes : List Pipe
  agent : CoachBirdAgent
deriving DecidableEq

/-- Initial pipe group (lines 181-184, also rebuilt on reset, lines
264-269): `get_random_pipes(SCREEN_WIDHT * i + 800)` for `i = 0, 1`, bottom
pipe added before top pipe, with the two `random.randint` draws made
explicit arguments. -/
def pipes_init (size1 size2 : ℤ) : List Pipe :=
  [(get_random_pipes (SCREEN_WIDHT * 0 + 800) size1).1,
   (get_random_pipes (SCREEN_WIDHT * 0 + 800) size1).2,
   (get_random_pipes (SCREEN_WIDHT * 1 + 800) size2).1,
   (get_random_pipes (SCREEN_WIDHT * 1 + 800) size2).2]

/-- Handler of an `R` key-down event, `src/flap.py` lines 255-270: only
when the round is over and the agent is not speaking, set `alive`, rebuild
the bird, ground and pipe groups from scratch, and return to the begin
screen; otherwise the event has no effect on the state. -/
def handle_reset_key (s : GameState) (size1 size2 : ℤ) : GameState :=
  if s.alive = false ∧ s.agent.speaking = false then
    { s with
        alive := true,
        bird := Bird.init,
        grounds := groundInit,
        pipes := pipes_init size1 size2,
        begin := true }
  else s

/-- Claim C4: while the game is in the Dead state and the agent is
speaking, an `R` key event changes nothing at all (in particular no
Dead-to-Begin transition happens and bird, pipes, grounds are untouched);
and whenever the handler changes anything, the agent was not speaking and
the game was in the Dead state. -/
theorem reset_key_noop_while_speaking (s : GameState) (size1 size2 : ℤ) :
    (s.alive = false → s.agent.speaking = true →
        handle_reset_key s size1 size2 = s) ∧
      (handle_reset_key s size1 size2 ≠ s →
        s.agent.speaking = false ∧ s.alive = false) := by
  constructor
  · intro _ hspeak
    rw [handle_reset_key, if_neg]
    intro hc
    rw [hc.2] at hspeak
    exact Bool.false_ne_true hspeak
  · intro hne
    by_cases hc : s.alive = false ∧ s.agent.speaking = false
    · exact ⟨hc.2, hc.1⟩
    · exact absurd (by rw [handle_reset_key, if_neg hc]) hne

/-- Claim C4 theorem instantiated at a Dead state with the agent mid-speech:
the `R` event is a no-op. -/
theorem reset_key_noop_witness :
    handle_reset_key
        { begin := false, alive := false, passed := true, score := 2,
          high_score := 5, loss_count := 6, ticks_played := 2000,
          bird := Bird.init, grounds := [-100, 685], pipes := pipes_init 150 200,
          agent := demoAgent1 } 120 180 =
      { begin := false, alive := false, passed := true, score := 2,
        high_score := 5, loss_count := 6, ticks_played := 2000,
        bird := Bird.init, grounds := [-100, 685], pipes := pipes_init 150 200,
        agent := demoAgent1 } :=
  (reset_key_noop_while_speaking
      { begin := false, alive := false, passed := true, score := 2,
        high_score := 5, loss_count := 6, ticks_played := 2000,
        bird := Bird.init, grounds := [-100, 685], pipes := pipes_init 150 200,
        agent := demoAgent1 } 120 180).1 rfl rfl

/- ------------------------------------------------------------------ -/
/- Dialog box word-wrap, claim C2.                                     -/
/- ------------------------------------------------------------------ -/

def letter_a : Char := 'a'

/-- Python `str.isspace` characters recognised by `text.split()`. -/
def isPySpace (c : Char) : Bool :=
  c == ' ' || c == '\t' || c == '\n' || c == '\r' || c == '\x0b' || c == '\x0c'

/-- `text.split()` with no separator, as used in `_wrap_text` line 191:
split on runs of whitespace, dropping empty pieces. -/
def splitWordsAux : List Char → List Char → List String
  | acc, [] => if acc.isEmpty then [] else [String.mk acc]
  | acc, c :: cs =>
      if isPySpace c then
        if acc.isEmpty then splitWordsAux [] cs
        else String.mk acc :: splitWordsAux [] cs
      else splitWordsAux (acc ++ [c]) cs

def pySplit (text : String) : List String :=
  splitWordsAux [] text.data

/-- `" ".join(...)` on a list of words. -/
def joinSpace : List String → String
  | [] => ""
  | [w] => w
  | w :: ws => w ++ " " ++ joinSpace ws

/-- The greedy line-fill loop of `PixelDialogBox._wrap_text`,
`src/agent_display.py` lines 195-206, parameterised by the font width
function `size` (the first component of `self.font.size(...)`) and the box
text width `maxW` (`self.width`).  Lines are kept as their word groups;
the emitted string of a group `g` is `joinSpace g`, exactly the source's
`" ".join(current_line)`.  For each word: if the prospective line (the
current line extended by the word; just the word when the current line is
empty) fits, extend the current line; otherwise flush the current line, if
any, and start a new line with the word.  A final nonempty current line is
flushed at the end. -/
def wrapAux (size : String → ℕ) (maxW : ℕ) : List String → List String → List (List String)
  | current_line, [] => if current_line = [] then [] else [current_line]
  | current_line, word :: words =>
      if size (if current_line = [] then word
               else joinSpace (current_line ++ [word])) ≤ maxW then
        wrapAux size maxW (current_line ++ [word]) words
      else if current_line = [] then wrapAux size maxW [word] words
      else current_line :: wrapAux size maxW [word] words

/-- `PixelDialogBox._wrap_text` (lines 190-208): split the text into words,
run the greedy line fill, and join each produced line with single
spaces. -/
def wrap_text (size : String → ℕ) (maxW : ℕ) (text : String) : List String :=
  (wrapAux size maxW [] (pySplit text)).map joinSpace

/-- Width of a string under a monospace font with character advance `cw`
pixels — the shape of the metrics of the monospace font chosen in
`PixelDialogBox.__init__` (lines 146-150). -/
def monoSize (cw : ℕ) (s : String) : ℕ :=
  cw * s.length

/-- `self.panel_padding = 10`, `src/agent_display.py` line 22. -/
def panel_padding : ℕ := 10

/-- `self.padding = 12`, `src/agent_display.py` line 151. -/
def dialog_padding : ℕ := 12

/-- The configured wrap width of the dialog box as instantiated by the
game: the panel is `screen_width - panel_padding * 2 = 380` wide (line 24
with `screen_width = 400`), the box is created with
`width = panel_rect.width - 32 = 348` (line 43), and `self.width` is that
minus `self.padding * 2` (line 152): 324 pixels. -/
def dialog_box_width : ℕ :=
  (400 - panel_padding * 2) - 32 - dialog_padding * 2

/-- A single 41-character word: at 8 pixels per character (a typical
advance for the 16 px monospace font), its rendered width 328 exceeds the
324-pixel box width. -/
def longWord : String := String.mk (List.replicate 41 letter_a)

/-- Claim C2, counterexample.  For the input consisting of one 41-character
word and monospace metrics of 8 pixels per character, `_wrap_text` produces
a line (the word itself) whose rendered width 328 exceeds the configured
box width 324: not every produced line fits the box. -/
theorem wrap_text_line_exceeds_box_width :
    ¬ (∀ l ∈ wrap_text (monoSize 8) dialog_box_width longWord,
        monoSize 8 l ≤ dialog_box_width) := by
  decide

theorem joinSpace_cons_cons (w x : String) (xs : List String) :
    joinSpace (w :: x :: xs) = w ++ " " ++ joinSpace (x :: xs) := rfl

theorem length_le_joinSpace (g : List String) (w : String) (hw : w ∈ g) :
    w.length ≤ (joinSpace g).length := by
  induction g with
  | nil => cases hw
  | cons hd tl ih =>
      cases tl with
      | nil =>
          have hwhd : w = hd := by simpa using hw
          subst hwhd
          simp [joinSpace]
      | cons x xs =>
          rw [joinSpace_cons_cons, String.length_append, String.length_append]
          have hsp : " ".length = 1 := rfl
          rcases List.mem_cons.mp hw with h | h
          · subst h
            omega
          · have := ih h
            omega

/-- Invariant of the greedy line fill: every emitted word group either
joins to a string that fits the box width, or is a single word (taken from
the running line or from the remaining input). -/
theorem wrapAux_fit_or_single (size : String → ℕ) (maxW : ℕ) :
    ∀ (words current_line : List String),
      (current_line = [] ∨ size (joinSpace current_line) ≤ maxW ∨
        ∃ w, current_line = [w]) →
      ∀ g ∈ wrapAux size maxW current_line words,
        size (joinSpace g) ≤ maxW ∨
          ∃ w, g = [w] ∧ (w ∈ current_line ∨ w ∈ words) := by
  intro words
  induction words with
  | nil =>
      intro current_line hinv g hg
      by_cases hc : current_line = []
      · simp [wrapAux, hc] at hg
      · simp only [wrapAux, if_neg hc, List.mem_singleton] at hg
        subst hg
        rcases hinv with h | h | ⟨w, hw⟩
        · exact absurd h hc
        · exact Or.inl h
        · exact Or.inr ⟨w, hw, Or.inl (by simp [hw])⟩
  | cons word ws ih =>
      intro current_line hinv g hg
      simp only [wrapAux] at hg
      by_cases hfit :
          size (if current_line = [] then word
                else joinSpace (current_line ++ [word])) ≤ maxW
      · rw [if_pos hfit] at hg
        have hinv' : current_line ++ [word] = [] ∨
            size (joinSpace (current_line ++ [word])) ≤ maxW ∨
            ∃ w, current_line ++ [word] = [w] := by
          by_cases hc : current_line = []
          · subst hc
            exact Or.inr (Or.inr ⟨word, rfl⟩)
          · rw [if_neg hc] at hfit
            exact Or.inr (Or.inl hfit)
        rcases ih (current_line ++ [word]) hinv' g hg with h | ⟨w, hgw, hmem⟩
        · exact Or.inl h
        · refine Or.inr ⟨w, hgw, ?_⟩
          rcases hmem with hm | hm
          · rcases List.mem_append.mp hm with hm' | hm'
            · exact Or.inl hm'
            · exact Or.inr (by simp at hm'; simp [hm'])
          · exact Or.inr (List.mem_cons_of_mem word hm)
      · rw [if_neg hfit] at hg
        have hsingle : ([word] : List String) = [] ∨
            size (joinSpace [word]) ≤ maxW ∨ ∃ w, ([word] : List String) = [w] :=
          Or.inr (Or.inr ⟨word, rfl⟩)
        by_cases hc : current_line = []
        · rw [if_pos hc] at hg
          rcases ih [word] hsingle g hg with h | ⟨w, hgw, hmem⟩
          · exact Or.inl h
          · refine Or.inr ⟨w, hgw, Or.inr ?_⟩
            rcases hmem with hm | hm
            · simp at hm
              simp [hm]
            · exact List.mem_cons_of_mem word hm
        · rw [if_neg hc] at hg
          rcases List.mem_cons.mp hg with hgc | hgr
          · subst hgc
            rcases hinv with h | h | ⟨w, hw⟩
            · exact absurd h hc
            · exact Or.inl h
            · exact Or.inr ⟨w, hw, Or.inl (by simp [hw])⟩
          · rcases ih [word] hsingle g hgr with h | ⟨w, hgw, hmem⟩
            · exact Or.inl h
            · refine Or.inr ⟨w, hgw, Or.inr ?_⟩
              rcases hmem with hm | hm
              · simp at hm
                simp [hm]
              · exact List.mem_cons_of_mem word hm

/-- Claim C2, amended: every line produced by `_wrap_text` either has
rendered width at most the configured box width or consists of a single
input word (whose width alone may exceed the box); and, under the monospace
metrics of the chosen font, a word whose rendered width alone exceeds the
box width is never placed on a line together with another word (its word
group is exactly the singleton of that word). -/
theorem wrap_text_lines_fit_or_single_word
    (size : String → ℕ) (maxW : ℕ) (text : String) (cw : ℕ) :
    (∀ l ∈ wrap_text size maxW text,
        size l ≤ maxW ∨ ∃ w ∈ pySplit text, l = w) ∧
      (∀ g ∈ wrapAux (monoSize cw) maxW [] (pySplit text), ∀ w ∈ g,
        maxW < monoSize cw w → g = [w]) := by
  constructor
  · intro l hl
    rcases List.mem_map.mp hl with ⟨g, hg, rfl⟩
    rcases wrapAux_fit_or_single size maxW (pySplit text) [] (Or.inl rfl) g hg
      with h | ⟨w, hgw, hmem⟩
    · exact Or.inl h
    · have hjoin : joinSpace g = w := by
        rw [hgw]
        rfl
      refine Or.inr ⟨w, ?_, hjoin⟩
      rcases hmem with hm | hm
      · cases hm
      · exact hm
  · intro g hg w hw hover
    rcases wrapAux_fit_or_single (monoSize cw) maxW (pySplit text) [] (Or.inl rfl) g hg
      with h | ⟨w', hgw', _⟩
    · exfalso
      have hlen : w.length ≤ (joinSpace g).length := length_le_joinSpace g w hw
      have : monoSize cw w ≤ monoSize cw (joinSpace g) :=
        Nat.mul_le_mul_left cw hlen
      omega
    · subst hgw'
      have : w = w' := by simpa using hw
      rw [this]

/-- Claim C2, amended theorem instantiated at the game's box width, 8 px
monospace metrics and the text "hi there": the single produced line fits
the box or is a lone input word. -/
theorem wrap_text_lines_fit_witness :
    monoSize 8 "hi there" ≤ dialog_box_width ∨
      ∃ w ∈ pySplit "hi there", "hi there" = w :=
  (wrap_text_lines_fit_or_single_word (monoSize 8) dialog_box_width "hi there" 8).1
    "hi there" (by decide)
